import Mathlib

/-
Verification of the systemd cgroup application engine
(pkg/cgroups/apply_systemd.go) and the secrets directory reader
(daemon/secrets.go).

The Go code is shallowly embedded: the pure planning phase of
`systemdApply` becomes Lean functions over a `Cgroup` record, and the
effectful phase becomes a deterministic interpreter that threads an
environment (the answers of the service manager, the mountpoint
resolver, and the filesystem) and records the ordered trace of external
effects the code performs.  Machine integers (int64, uint64, uint32)
are modelled as `Int`/`Nat`, with the unsigned casts made explicit.
-/

set_option maxRecDepth 4096

abbrev Err := String

/-- KeyValue mirrors the Go struct of the same name: one manual
controller-file write (file name, value). -/
structure KeyValue where
  Key : String
  Value : String
deriving DecidableEq, Repr

/-- DeviceAllow mirrors the Go struct: a device node path and its
permission string, as used in the systemd DeviceAllow unit property. -/
structure DeviceAllow where
  Node : String
  Permissions : String
deriving DecidableEq, Repr

/-- Values carried by systemd unit properties (dbus.MakeVariant payloads
used by this file: strings, a uint32 pid list, booleans, uint64 limits,
and the DeviceAllow list). -/
inductive Variant where
  | str : String → Variant
  | pids : List Nat → Variant
  | vbool : Bool → Variant
  | u64 : Nat → Variant
  | devAllow : List DeviceAllow → Variant
deriving DecidableEq, Repr

/-- systemd1.Property: a named unit property with a variant value. -/
structure Property where
  Name : String
  Value : Variant
deriving DecidableEq, Repr

/-- The fields of the Cgroup resource specification consumed by
systemdApply.  Go int64 fields are Int; string and bool fields keep
their types. -/
structure Cgroup where
  Name : String
  Parent : String
  Slice : String
  Memory : Int
  MemorySwap : Int
  MemoryAccounting : Bool
  CpuShares : Int
  CpuQuota : Int
  CpuAccounting : Bool
  CpusetCpus : String
  CpusetMems : String
  DeviceAccess : Bool
  Foreground : Bool
deriving DecidableEq, Repr

/-- uint64(i) for an int64 value i: reduction modulo 2^64. -/
def toUint64 (i : Int) : Nat := (i % (2 : Int) ^ 64).toNat

/-- uint32(i) for an int value i: reduction modulo 2^32. -/
def toUint32 (i : Int) : Nat := (i % (2 : Int) ^ 32).toNat

/-- filepath.Join for two components, up to path cleaning: empty
components are dropped, otherwise the parts are joined with a slash.
The engine only ever compares paths it built itself, so the
slash-collapsing of Go's Clean is not needed. -/
def joinPath (a b : String) : String :=
  if a = "" then b else if b = "" then a else a ++ "/" ++ b

/-- filepath.Base on linux: empty path gives ".", trailing slashes are
stripped, the last component is returned, and a path of only slashes
gives "/". -/
def baseName (path : String) : String :=
  if path = "" then "."
  else
    let rev := path.data.reverse.dropWhile (fun ch => ch = '/')
    if rev = [] then "/"
    else String.mk (rev.takeWhile (fun ch => ch ≠ '/')).reverse

/-- getIfaceForUnit: suffix-based dispatch of the dbus interface class. -/
def getIfaceForUnit (unitName : String) : String :=
  if ".scope".data.isSuffixOf unitName.data then "Scope"
  else if ".service".data.isSuffixOf unitName.data then "Service"
  else "Unit"

/-- Two's-complement int64 wraparound: the value a Go int64 holds after
an operation whose mathematical result is i. -/
def int64Wrap (i : Int) : Int :=
  let r := i % (2 : Int) ^ 64
  if r < 2 ^ 63 then r else r - 2 ^ 64

/-- Lines 105–115: the manual memory-swap write.  Produced only when
MemorySwap >= 0 and (Memory != 0 or MemorySwap > 0); a zero MemorySwap
defaults to twice Memory, computed by the int64 multiplication of line
111, which wraps on overflow. -/
def memoryArgsOf (c : Cgroup) : List KeyValue :=
  if 0 ≤ c.MemorySwap ∧ (c.Memory ≠ 0 ∨ 0 < c.MemorySwap) then
    let memorySwap := if c.MemorySwap = 0 then int64Wrap (c.Memory * 2) else c.MemorySwap
    [{ Key := "memory.memsw.limit_in_bytes", Value := toString memorySwap }]
  else []

/-- Lines 117–119: the manual CPU quota write. -/
def cpuArgsOf (c : Cgroup) : List KeyValue :=
  if c.CpuQuota ≠ 0 then
    [{ Key := "cpu.cfs_quota_us", Value := toString c.CpuQuota }]
  else []

/-- Lines 121–127: the manual cpuset writes, cpus first then mems. -/
def cpusetArgsOf (c : Cgroup) : List KeyValue :=
  (if c.CpusetCpus ≠ "" then [{ Key := "cpuset.cpus", Value := c.CpusetCpus }] else []) ++
  (if c.CpusetMems ≠ "" then [{ Key := "cpuset.mems", Value := c.CpusetMems }] else [])

/-- Lines 80, 129–131: the slice, defaulting to system.slice. -/
def sliceOf (c : Cgroup) : String :=
  if c.Slice ≠ "" then c.Slice else "system.slice"

/-- Lines 144–158: the fixed DeviceAllow list of default-safe device
nodes used when DeviceAccess is false and not in foreground mode. -/
def safeDeviceAllowList : List DeviceAllow :=
  [{ Node := "/dev/null", Permissions := "rwm" },
   { Node := "/dev/zero", Permissions := "rwm" },
   { Node := "/dev/full", Permissions := "rwm" },
   { Node := "/dev/random", Permissions := "rwm" },
   { Node := "/dev/urandom", Permissions := "rwm" },
   { Node := "/dev/tty", Permissions := "rwm" },
   { Node := "/dev/console", Permissions := "rwm" },
   { Node := "/dev/tty0", Permissions := "rwm" },
   { Node := "/dev/tty1", Permissions := "rwm" },
   { Node := "/dev/pts/ptmx", Permissions := "rwm" }]

/-- Lines 160–179: the raw device rules appended only in foreground
mode (wildcard mknod rules, then concrete character devices). -/
def foregroundDeviceRules : List String :=
  ["c *:* m", "b *:* m",
   "c 1:3 rwm", "c 1:5 rwm", "c 1:7 rwm",
   "c 5:1 rwm", "c 5:0 rwm", "c 4:0 rwm", "c 4:1 rwm", "c 5:2 rwm",
   "c 1:9 rwm", "c 1:8 rwm"]

/-- Lines 182–186: the two rules always appended manually when
DeviceAccess is false: the /dev/pts/* range and the tuntap node. -/
def sharedDeviceRules : List String :=
  ["c 136:* rwm", "c 10:200 rwm"]

/-- Lines 140–187: the `devices` slice of raw device-allow rules.
Foreground mode gets the foreground rules first; the two shared rules
are appended in both modes whenever DeviceAccess is false. -/
def devicesOf (c : Cgroup) (foreground : Bool) : List String :=
  if !c.DeviceAccess then
    (if foreground then foregroundDeviceRules else []) ++ sharedDeviceRules
  else []

/-- Lines 133–209: the systemd unit property list, in the exact append
order of the source: identity block, device block, forced accounting,
then the direct limits. -/
def propertiesOf (c : Cgroup) (pid : Int) (foreground : Bool) : List Property :=
  (if !foreground then
    [{ Name := "Slice", Value := .str (sliceOf c) },
     { Name := "Description", Value := .str ("docker container " ++ c.Name) },
     { Name := "PIDs", Value := .pids [toUint32 pid] }]
  else []) ++
  (if !c.DeviceAccess && !foreground then
    [{ Name := "DevicePolicy", Value := .str "strict" },
     { Name := "DeviceAllow", Value := .devAllow safeDeviceAllowList }]
  else []) ++
  (if c.MemoryAccounting || (memoryArgsOf c).length != 0 then
    [{ Name := "MemoryAccounting", Value := .vbool true }]
  else []) ++
  (if c.CpuAccounting || (cpuArgsOf c).length != 0 then
    [{ Name := "CPUAccounting", Value := .vbool true }]
  else []) ++
  (if c.Memory ≠ 0 then
    [{ Name := "MemoryLimit", Value := .u64 (toUint64 c.Memory) }]
  else []) ++
  (if c.CpuShares ≠ 0 then
    [{ Name := "CPUShares", Value := .u64 (toUint64 c.CpuShares) }]
  else [])

/-
The effectful phase.  Every external interaction of systemdApply is
recorded as an Effect; the environment Env supplies the answer each
interaction would return.  The interpreter is deterministic and returns
the function result (the cleanup-dir list owned by the ActiveCgroup
handle on success, or the surfaced error) together with the ordered
trace of effects performed up to the point of return.
-/

/-- One external interaction performed by systemdApply or Cleanup. -/
inductive Effect where
  | getThisCgroupDir : String → Effect
  | startTransientUnit : String → String → List Property → Effect
  | setUnitProperties : String → Bool → List Property → Effect
  | getUnitTypeProperties : String → String → Effect
  | findMountpoint : String → Effect
  | getInitCgroupDir : String → Effect
  | mkdirAll : String → Effect
  | write : String → String → String → Effect
  | readFile : String → Effect
  | removeAll : String → Effect
deriving DecidableEq, Repr

/-- Answers of the external world consulted by systemdApply.
ambientDir models the identifier `dir` that line 261 of the source
passes to writeFile without declaring it anywhere in the function. -/
structure Env where
  thisCgroupDir : Except Err String
  startTransientUnitRes : Except Err Unit
  setUnitPropertiesRes : Except Err Unit
  controlGroupOfUnit : Except Err String
  mountpoint : String → Except Err String
  initCgroupDir : String → Except Err String
  mkdirRes : String → Except Err Unit
  writeRes : String → String → String → Except Err Unit
  readRes : String → Except Err String
  ambientDir : String

/-- Sequencing of effectful steps: run x, and on success feed its value
to f, concatenating the traces; on failure stop with x's trace. -/
def seqE {α β : Type} (x : Except Err α × List Effect)
    (f : α → Except Err β × List Effect) : Except Err β × List Effect :=
  match x with
  | (Except.ok a, t) => ((f a).1, t ++ (f a).2)
  | (Except.error e, t) => (Except.error e, t)

/-- A single external call: record the effect, return the environment's
answer. -/
def callE {α : Type} (e : Effect) (r : Except Err α) :
    Except Err α × List Effect :=
  (r, [e])

/-- A loop of writeFile calls over a KeyValue list against one
directory, stopping at the first error (the `for _, kv := range` loops
of the source). -/
def writeKVs (env : Env) (path : String) : List KeyValue → Except Err Unit × List Effect
  | [] => (Except.ok (), [])
  | kv :: rest =>
    seqE (callE (.write path kv.Key kv.Value) (env.writeRes path kv.Key kv.Value)) fun _ =>
    writeKVs env path rest

/-- Lines 95–103: foreground resolution.  In foreground mode the unit
name becomes the base name of the caller's own systemd cgroup dir;
otherwise it is Parent-Name.scope (line 79). -/
def resolveUnit (env : Env) (c : Cgroup) : Except Err (String × Bool) × List Effect :=
  if c.Foreground then
    match env.thisCgroupDir with
    | Except.ok cgroup => (Except.ok (baseName cgroup, true), [.getThisCgroupDir "name=systemd"])
    | Except.error e => (Except.error e, [.getThisCgroupDir "name=systemd"])
  else
    (Except.ok (c.Parent ++ "-" ++ c.Name ++ ".scope", false), [])

/-- Lines 211–221: the unit applier.  Foreground updates properties of
the existing unit (only when there are any); otherwise a transient unit
is started with "replace" collision mode. -/
def managerCall (env : Env) (unitName : String) (foreground : Bool)
    (properties : List Property) : Except Err Unit × List Effect :=
  if foreground then
    if properties.length > 0 then
      callE (.setUnitProperties unitName true properties) env.setUnitPropertiesRes
    else (Except.ok (), [])
  else
    callE (.startTransientUnit unitName "replace" properties) env.startTransientUnitRes

/-- Lines 225–230: query the manager for the ControlGroup property of
the unit, via the suffix-dispatched interface class. -/
def discoverCgroup (env : Env) (unitName : String) : Except Err String × List Effect :=
  callE (.getUnitTypeProperties unitName (getIfaceForUnit unitName)) env.controlGroupOfUnit

/-- Lines 232–271: the devices block.  Non-foreground joins the
manager-created path; foreground builds its own subtree under the init
devices dir, joins the pid, writes the deny-all rule — against the
ambient `dir` of line 261, which the source never declares — and then
appends every rule of the plan.  Returns the cleanup dirs it created. -/
def devicesBlock (env : Env) (c : Cgroup) (pid : Int) (foreground : Bool)
    (cgroup : String) (devices : List String) :
    Except Err (List String) × List Effect :=
  if !c.DeviceAccess then
    seqE (callE (.findMountpoint "devices") (env.mountpoint "devices")) fun mountpoint =>
    if foreground then
      seqE (callE (.getInitCgroupDir "devices") (env.initCgroupDir "devices")) fun initPath =>
      let path := joinPath (joinPath (joinPath mountpoint initPath) c.Parent) c.Name
      seqE (callE (.mkdirAll path) (env.mkdirRes path)) fun _ =>
      seqE (callE (.write path "cgroup.procs" (toString pid))
        (env.writeRes path "cgroup.procs" (toString pid))) fun _ =>
      seqE (callE (.write env.ambientDir "devices.deny" "a")
        (env.writeRes env.ambientDir "devices.deny" "a")) fun _ =>
      seqE (writeKVs env path (devices.map fun d => { Key := "devices.allow", Value := d })) fun _ =>
      (Except.ok [path], [])
    else
      let path := joinPath mountpoint cgroup
      seqE (writeKVs env path (devices.map fun d => { Key := "devices.allow", Value := d })) fun _ =>
      (Except.ok ([] : List String), [])
  else (Except.ok ([] : List String), [])

/-- Lines 273–286: the cpu block, writing each manual cpu arg into the
manager-created path. -/
def cpuBlock (env : Env) (cgroup : String) (cpuArgs : List KeyValue) :
    Except Err Unit × List Effect :=
  if cpuArgs.length != 0 then
    seqE (callE (.findMountpoint "cpu") (env.mountpoint "cpu")) fun mountpoint =>
    writeKVs env (joinPath mountpoint cgroup) cpuArgs
  else (Except.ok (), [])

/-- Lines 288–301: the memory block, writing each manual memory arg
into the manager-created path. -/
def memoryBlock (env : Env) (cgroup : String) (memoryArgs : List KeyValue) :
    Except Err Unit × List Effect :=
  if memoryArgs.length != 0 then
    seqE (callE (.findMountpoint "memory") (env.mountpoint "memory")) fun mountpoint =>
    writeKVs env (joinPath mountpoint cgroup) memoryArgs
  else (Except.ok (), [])

/-- Lines 303–369: the cpuset block.  A single flat directory
Parent-Name under the init cpuset dir; supplied lists are written, the
others are read from the root dir and copied down, and the pid is
joined last.  The foundCpus/foundMems flags that the source computes
inside the write loop are computed here by List.any over the same list;
the flags are only consulted after the loop has fully succeeded, so the
two are equivalent. -/
def cpusetBlock (env : Env) (c : Cgroup) (pid : Int) :
    Except Err (List String) × List Effect :=
  let cpusetArgs := cpusetArgsOf c
  if cpusetArgs.length != 0 then
    seqE (callE (.findMountpoint "cpuset") (env.mountpoint "cpuset")) fun mountpoint =>
    seqE (callE (.getInitCgroupDir "cpuset") (env.initCgroupDir "cpuset")) fun initPath =>
    let rootPath := joinPath mountpoint initPath
    let path := joinPath rootPath (c.Parent ++ "-" ++ c.Name)
    seqE (callE (.mkdirAll path) (env.mkdirRes path)) fun _ =>
    seqE (writeKVs env path cpusetArgs) fun _ =>
    let foundCpus := cpusetArgs.any fun kv => kv.Key == "cpuset.cpus"
    let foundMems := cpusetArgs.any fun kv => kv.Key == "cpuset.mems"
    seqE (if foundCpus then (Except.ok (), []) else
      seqE (callE (.readFile (joinPath rootPath "cpuset.cpus"))
        (env.readRes (joinPath rootPath "cpuset.cpus"))) fun s =>
      callE (.write path "cpuset.cpus" s) (env.writeRes path "cpuset.cpus" s)) fun _ =>
    seqE (if foundMems then (Except.ok (), []) else
      seqE (callE (.readFile (joinPath rootPath "cpuset.mems"))
        (env.readRes (joinPath rootPath "cpuset.mems"))) fun s =>
      callE (.write path "cpuset.mems" s) (env.writeRes path "cpuset.mems" s)) fun _ =>
    seqE (callE (.write path "cgroup.procs" (toString pid))
      (env.writeRes path "cgroup.procs" (toString pid))) fun _ =>
    (Except.ok [path], [])
  else (Except.ok ([] : List String), [])

/-- Lines 78–372: systemdApply.  The blocks run in source order; the
returned list is the handle's cleanupDirs (devices-foreground dir
first, cpuset dir second, matching the append order of the source). -/
def systemdApply (env : Env) (c : Cgroup) (pid : Int) :
    Except Err (List String) × List Effect :=
  seqE (resolveUnit env c) fun ufg =>
  seqE (managerCall env ufg.1 ufg.2 (propertiesOf c pid ufg.2)) fun _ =>
  seqE (discoverCgroup env ufg.1) fun cgroup =>
  seqE (devicesBlock env c pid ufg.2 cgroup (devicesOf c ufg.2)) fun devDirs =>
  seqE (cpuBlock env cgroup (cpuArgsOf c)) fun _ =>
  seqE (memoryBlock env cgroup (memoryArgsOf c)) fun _ =>
  seqE (cpusetBlock env c pid) fun cpusetDirs =>
  (Except.ok (devDirs ++ cpusetDirs), [])

/-
Cleanup (lines 374–382).  The filesystem is modelled as the list of
existing paths; os.RemoveAll(p) removes p and everything below it, and
its error result is discarded by the source (the call's return value is
not even bound), so Cleanup always returns nil.
-/

/-- os.RemoveAll on the modelled filesystem: drop the path and every
path strictly below it. -/
def removeAllFS (fs : List String) (path : String) : List String :=
  fs.filter fun q => !(q == path || String.isPrefixOf (path ++ "/") q)

/-- Cleanup: remove every cleanup dir in order, discarding removal
errors, and return nil.  First component: the filesystem afterwards;
second: the returned error (always none, as in the source). -/
def Cleanup (cleanupDirs : List String) (fs : List String) :
    List String × Option Err :=
  (cleanupDirs.foldl removeAllFS fs, none)

/-
daemon/secrets.go.  Paths are modelled as segment lists (filepath.Join
is list append), the filesystem under a path as an inductive Node tree,
and failures other than non-existence (permission denial and the like)
by an oracle `denied` that marks paths whose directory read or stat
fails.  ReadDir on an existing directory node either fails through that
oracle or lists the node's entries.
-/

/-- SecretData mirrors the Go struct: relative name and file bytes. -/
structure SecretData where
  Name : List String
  Data : String
deriving DecidableEq, Repr

/-- A node of the modelled filesystem: a file with contents, or a
directory with named entries in directory order. -/
inductive Node where
  | file : String → Node
  | dir : List (String × Node) → Node

/-- Errors of the secrets reader: the distinguished does-not-exist
error recognized by os.IsNotExist, or any other failure. -/
inductive SecErr where
  | notExist : SecErr
  | other : String → SecErr
deriving DecidableEq, Repr

/-- ioutil.ReadDir at a path whose resolved node is n: a denied path
fails with a non-IsNotExist error, a missing path fails with the
IsNotExist error, a file fails as not-a-directory, and a directory
lists its entries. -/
def readDirM (denied : List String → Bool) (path : List String)
    (n : Option Node) : Except SecErr (List (String × Node)) :=
  if denied path then Except.error (SecErr.other "permission denied")
  else
    match n with
    | none => Except.error SecErr.notExist
    | some (Node.file _) => Except.error (SecErr.other "not a directory")
    | some (Node.dir entries) => Except.ok entries

mutual
/-- The entry loop of readAll (lines 45–51): each entry is fed to
readFile with the prefixed name, errors abort, results concatenate. -/
def readEntries (denied : List String → Bool) (root pfx : List String) :
    List (String × Node) → Except SecErr (List SecretData)
  | [] => Except.ok []
  | (name, child) :: rest =>
    match readFileGo denied root (pfx ++ [name]) child with
    | Except.error e => Except.error e
    | Except.ok fileData =>
      match readEntries denied root pfx rest with
      | Except.error e => Except.error e
      | Except.ok restData => Except.ok (fileData ++ restData)

/-- readFile (lines 56–77) on a node known to exist (it came from its
parent's listing): os.Stat fails only through the denied oracle; a
directory is recursed into via readAll — whose ReadDir, on this
already-resolved directory node, either fails through the oracle
(handled by the same denied check) or lists the entries, so the
recursion goes straight to the entry loop — and a file's bytes are
returned under the relative name. -/
def readFileGo (denied : List String → Bool) (root name : List String) :
    Node → Except SecErr (List SecretData)
  | Node.dir entries =>
    if denied (root ++ name) then Except.error (SecErr.other "permission denied")
    else readEntries denied root name entries
  | Node.file bytes =>
    if denied (root ++ name) then Except.error (SecErr.other "permission denied")
    else Except.ok [{ Name := name, Data := bytes }]
end

/-- readAll (lines 31–54): ReadDir the joined path; an IsNotExist
failure returns the empty (non-nil) slice with nil error, any other
failure is surfaced with a nil slice; otherwise every entry is read
and the results concatenated. -/
def readAllGo (denied : List String → Bool) (root pfx : List String)
    (n : Option Node) : Except SecErr (List SecretData) :=
  match readDirM denied (root ++ pfx) n with
  | Except.error SecErr.notExist => Except.ok []
  | Except.error e => Except.error e
  | Except.ok entries => readEntries denied root pfx entries

/-
Concrete fixtures used by witnesses and counterexamples.
-/

/-- A minimal spec: docker-c1, no limits, restricted devices, background. -/
def baseSpec : Cgroup :=
  { Name := "c1", Parent := "docker", Slice := "", Memory := 0, MemorySwap := 0,
    MemoryAccounting := false, CpuShares := 0, CpuQuota := 0, CpuAccounting := false,
    CpusetCpus := "", CpusetMems := "", DeviceAccess := false, Foreground := false }

/-- An environment in which every external call succeeds. -/
def okEnv : Env :=
  { thisCgroupDir := Except.ok "/user.slice/session-1.scope",
    startTransientUnitRes := Except.ok (),
    setUnitPropertiesRes := Except.ok (),
    controlGroupOfUnit := Except.ok "system.slice/docker-c1.scope",
    mountpoint := fun _ => Except.ok "/mnt",
    initCgroupDir := fun _ => Except.ok "init",
    mkdirRes := fun _ => Except.ok (),
    writeRes := fun _ _ _ => Except.ok (),
    readRes := fun _ => Except.ok "0-3",
    ambientDir := "/elsewhere" }

/-- C1 counterexample: at Memory = 2^62 with MemorySwap = 0 the guard
passes and the int64 multiplication of line 111 wraps, so the program
writes the wrapped negative value, not 2 * Memory. -/
theorem c1_wrap_counterexample :
    memoryArgsOf { baseSpec with Memory := 2 ^ 62, MemorySwap := 0 } =
      [{ Key := "memory.memsw.limit_in_bytes", Value := "-9223372036854775808" }]
    ∧ toString (2 * ((2 : Int) ^ 62)) = "9223372036854775808"
    ∧ memoryArgsOf { baseSpec with Memory := 2 ^ 62, MemorySwap := 0 } ≠
      [{ Key := "memory.memsw.limit_in_bytes", Value := toString (2 * ((2 : Int) ^ 62)) }] := by
  refine ⟨?_, ?_, ?_⟩ <;> decide

/-- C1 (amended): a memory-swap manual write is produced iff
MemorySwap >= 0 and (Memory != 0 or MemorySwap > 0); the written value
is MemorySwap when nonzero and the int64 wraparound of 2 * Memory
otherwise — which coincides with 2 * Memory whenever
0 <= Memory < 2^62; in particular MemorySwap = -1 produces no swap
write for any Memory. -/
theorem c1_memsw_plan (c : Cgroup) :
    (memoryArgsOf c =
      if 0 ≤ c.MemorySwap ∧ (c.Memory ≠ 0 ∨ 0 < c.MemorySwap) then
        [{ Key := "memory.memsw.limit_in_bytes",
           Value := toString (if c.MemorySwap ≠ 0 then c.MemorySwap
                              else int64Wrap (2 * c.Memory)) }]
      else [])
    ∧ (0 ≤ c.Memory → c.Memory < 2 ^ 62 → int64Wrap (2 * c.Memory) = 2 * c.Memory) := by
  constructor
  · unfold memoryArgsOf
    split
    · by_cases h0 : c.MemorySwap = 0
      · simp [h0, Int.mul_comm]
      · simp [h0]
    · rfl
  · intro hm0 hmlt
    unfold int64Wrap
    have e63 : (2 : Int) ^ 63 = 2 * 2 ^ 62 := by norm_num
    have h1 : (0 : Int) ≤ 2 * c.Memory := by linarith
    have h3 : 2 * c.Memory < 2 ^ 63 := by rw [e63]; linarith
    have h2 : 2 * c.Memory < 2 ^ 64 := by
      have : (2 : Int) ^ 63 < 2 ^ 64 := by norm_num
      linarith
    rw [Int.emod_eq_of_lt h1 h2]
    have h3n : 2 * c.Memory < 9223372036854775808 := by
      have e : (2 : Int) ^ 63 = 9223372036854775808 := by norm_num
      linarith
    simp [h3n]

/-- C1 witness: the amended statement at Memory = 100000000 and
MemorySwap = 0, where the default is below the wrap threshold and the
written value is 200000000. -/
theorem c1_memsw_plan_witness :
    memoryArgsOf { baseSpec with Memory := 100000000 } =
      [{ Key := "memory.memsw.limit_in_bytes", Value := "200000000" }]
    ∧ int64Wrap (2 * 100000000) = 2 * 100000000 := by
  have h := c1_memsw_plan { baseSpec with Memory := 100000000 }
  refine ⟨?_, h.2 (by decide) (by decide)⟩
  rw [h.1]
  decide

/-- C2 counterexample: for the restricted background spec, the planner
produces exactly one DeviceAllow unit property, and its payload is the
fixed safe list — which has ten entries, not nine. -/
theorem c2_nine_entries_counterexample :
    (propertiesOf baseSpec 7 false).filter (fun p => p.Name == "DeviceAllow") =
      [{ Name := "DeviceAllow", Value := .devAllow safeDeviceAllowList }]
    ∧ safeDeviceAllowList.length ≠ 9 := by
  constructor
  · decide
  · decide

/-- C2 (amended): for DeviceAccess = false and Foreground = false the
planner emits exactly one DeviceAllow unit property carrying the ten
fixed safe device entries, and the manual device-write list is exactly
the pts-range rule followed by the tunnel rule. -/
theorem c2_device_lists (c : Cgroup) (pid : Int)
    (h1 : c.DeviceAccess = false) (h2 : c.Foreground = false) :
    (propertiesOf c pid c.Foreground).filter (fun p => p.Name == "DeviceAllow") =
      [{ Name := "DeviceAllow", Value := .devAllow safeDeviceAllowList }]
    ∧ safeDeviceAllowList =
      [{ Node := "/dev/null", Permissions := "rwm" },
       { Node := "/dev/zero", Permissions := "rwm" },
       { Node := "/dev/full", Permissions := "rwm" },
       { Node := "/dev/random", Permissions := "rwm" },
       { Node := "/dev/urandom", Permissions := "rwm" },
       { Node := "/dev/tty", Permissions := "rwm" },
       { Node := "/dev/console", Permissions := "rwm" },
       { Node := "/dev/tty0", Permissions := "rwm" },
       { Node := "/dev/tty1", Permissions := "rwm" },
       { Node := "/dev/pts/ptmx", Permissions := "rwm" }]
    ∧ devicesOf c c.Foreground = ["c 136:* rwm", "c 10:200 rwm"] := by
  refine ⟨?_, rfl, ?_⟩
  · simp only [propertiesOf, h1, h2, Bool.not_false, Bool.and_self, if_true,
      List.filter_append]
    split_ifs <;> simp +decide
  · simp [devicesOf, h1, h2, sharedDeviceRules]

/-- C2 witness: the amended statement evaluated at the base spec. -/
theorem c2_device_lists_witness :
    (propertiesOf baseSpec 7 baseSpec.Foreground).filter (fun p => p.Name == "DeviceAllow") =
      [{ Name := "DeviceAllow", Value := .devAllow safeDeviceAllowList }]
    ∧ safeDeviceAllowList =
      [{ Node := "/dev/null", Permissions := "rwm" },
       { Node := "/dev/zero", Permissions := "rwm" },
       { Node := "/dev/full", Permissions := "rwm" },
       { Node := "/dev/random", Permissions := "rwm" },
       { Node := "/dev/urandom", Permissions := "rwm" },
       { Node := "/dev/tty", Permissions := "rwm" },
       { Node := "/dev/console", Permissions := "rwm" },
       { Node := "/dev/tty0", Permissions := "rwm" },
       { Node := "/dev/tty1", Permissions := "rwm" },
       { Node := "/dev/pts/ptmx", Permissions := "rwm" }]
    ∧ devicesOf baseSpec baseSpec.Foreground = ["c 136:* rwm", "c 10:200 rwm"] :=
  c2_device_lists baseSpec 7 rfl rfl

/-- C4: the MemoryAccounting unit property is emitted whenever the
manual memory-args list is non-empty, and the CPUAccounting property
whenever the manual cpu-args list is non-empty, for any spec (in
particular with both accounting flags false). -/
theorem c4_accounting_forced (c : Cgroup) (pid : Int) (fg : Bool) :
    (memoryArgsOf c ≠ [] →
      { Name := "MemoryAccounting", Value := Variant.vbool true } ∈ propertiesOf c pid fg)
    ∧ (cpuArgsOf c ≠ [] →
      { Name := "CPUAccounting", Value := Variant.vbool true } ∈ propertiesOf c pid fg) := by
  constructor
  · intro h
    have hb : ((memoryArgsOf c).length != 0) = true := by
      simpa [bne_iff_ne] using h
    simp [propertiesOf, hb]
  · intro h
    have hb : ((cpuArgsOf c).length != 0) = true := by
      simpa [bne_iff_ne] using h
    simp [propertiesOf, hb]

/-- C4 witness: a spec with swap and quota set but both accounting
flags false still gets both accounting properties. -/
theorem c4_accounting_forced_witness :
    { Name := "MemoryAccounting", Value := Variant.vbool true } ∈
      propertiesOf { baseSpec with Memory := 100000000, CpuQuota := 50000 } 7 false
    ∧ { Name := "CPUAccounting", Value := Variant.vbool true } ∈
      propertiesOf { baseSpec with Memory := 100000000, CpuQuota := 50000 } 7 false :=
  ⟨(c4_accounting_forced { baseSpec with Memory := 100000000, CpuQuota := 50000 } 7 false).1
      (by decide),
   (c4_accounting_forced { baseSpec with Memory := 100000000, CpuQuota := 50000 } 7 false).2
      (by decide)⟩

/-- The foreground variant of the base spec. -/
def c3spec : Cgroup := { baseSpec with Foreground := true }

/-- C3: evaluating the apply operation for a foreground spec with
restricted devices in the all-success environment.  The deny-all rule
is written before the foreground allow rules (wildcard mknod rules
first) and the shared pts/tunnel rules come last — but the deny-all
write goes to the ambient directory standing in for the undeclared
identifier `dir` of source line 261 ("/elsewhere" here), not to the
directory the engine itself created ("/mnt/init/docker/c1"). -/
theorem c3_foreground_deny_eval :
    systemdApply okEnv c3spec 7 =
      (Except.ok ["/mnt/init/docker/c1"],
       [Effect.getThisCgroupDir "name=systemd",
        Effect.getUnitTypeProperties "session-1.scope" "Scope",
        Effect.findMountpoint "devices",
        Effect.getInitCgroupDir "devices",
        Effect.mkdirAll "/mnt/init/docker/c1",
        Effect.write "/mnt/init/docker/c1" "cgroup.procs" "7",
        Effect.write "/elsewhere" "devices.deny" "a",
        Effect.write "/mnt/init/docker/c1" "devices.allow" "c *:* m",
        Effect.write "/mnt/init/docker/c1" "devices.allow" "b *:* m",
        Effect.write "/mnt/init/docker/c1" "devices.allow" "c 1:3 rwm",
        Effect.write "/mnt/init/docker/c1" "devices.allow" "c 1:5 rwm",
        Effect.write "/mnt/init/docker/c1" "devices.allow" "c 1:7 rwm",
        Effect.write "/mnt/init/docker/c1" "devices.allow" "c 5:1 rwm",
        Effect.write "/mnt/init/docker/c1" "devices.allow" "c 5:0 rwm",
        Effect.write "/mnt/init/docker/c1" "devices.allow" "c 4:0 rwm",
        Effect.write "/mnt/init/docker/c1" "devices.allow" "c 4:1 rwm",
        Effect.write "/mnt/init/docker/c1" "devices.allow" "c 5:2 rwm",
        Effect.write "/mnt/init/docker/c1" "devices.allow" "c 1:9 rwm",
        Effect.write "/mnt/init/docker/c1" "devices.allow" "c 1:8 rwm",
        Effect.write "/mnt/init/docker/c1" "devices.allow" "c 136:* rwm",
        Effect.write "/mnt/init/docker/c1" "devices.allow" "c 10:200 rwm"])
    ∧ "/elsewhere" ≠ "/mnt/init/docker/c1" := by
  constructor
  · rfl
  · decide

/-- The unit name carried by an effect that addresses the service
manager by unit, if any. -/
def Effect.managerUnitName : Effect → Option String
  | .startTransientUnit n _ _ => some n
  | .setUnitProperties n _ _ => some n
  | .getUnitTypeProperties n _ => some n
  | _ => none

/-- True when the effect either does not address a unit or addresses
the given unit name. -/
def usesUnitName (unit : String) (eff : Effect) : Bool :=
  match eff.managerUnitName with
  | some n => n == unit
  | none => true

/-- Unit lifecycle calls: transient-unit creation and property update. -/
def Effect.isUnitLifecycleCall : Effect → Bool
  | .startTransientUnit _ _ _ => true
  | .setUnitProperties _ _ _ => true
  | _ => false

/-- Effects that change cgroup filesystem state: directory creation,
control-file writes, and removals. -/
def Effect.touchesFilesystem : Effect → Bool
  | .mkdirAll _ => true
  | .write _ _ _ => true
  | .removeAll _ => true
  | _ => false

/-- Effects that the four direct-applier blocks can emit. -/
def Effect.isBlockEffect : Effect → Bool
  | .findMountpoint _ => true
  | .getInitCgroupDir _ => true
  | .mkdirAll _ => true
  | .write _ _ _ => true
  | .readFile _ => true
  | _ => false

/-- Effect membership through seqE: a property of every effect of both
parts (the continuation only for values the first part produced)
transfers to the composition. -/
theorem seqE_forall {α β : Type} {P : Effect → Prop}
    (x : Except Err α × List Effect) (f : α → Except Err β × List Effect)
    (hx : ∀ eff ∈ x.2, P eff)
    (hf : ∀ a, x.1 = Except.ok a → ∀ eff ∈ (f a).2, P eff) :
    ∀ eff ∈ (seqE x f).2, P eff := by
  rcases x with ⟨r, t⟩
  cases r with
  | ok a =>
    intro eff h
    simp only [seqE, List.mem_append] at h
    rcases h with h | h
    · exact hx eff h
    · exact hf a rfl eff h
  | error e =>
    intro eff h
    exact hx eff h

/-- The trace of a seqE composition extends the trace of its first
part. -/
theorem seqE_trace_prefix {α β : Type}
    (x : Except Err α × List Effect) (f : α → Except Err β × List Effect) :
    ∃ t, (seqE x f).2 = x.2 ++ t := by
  rcases x with ⟨r, t⟩
  cases r with
  | ok a => exact ⟨(f a).2, rfl⟩
  | error e => exact ⟨[], (List.append_nil t).symm⟩

/-- Every effect of a writeKVs loop is a write against its directory. -/
theorem writeKVs_effects (env : Env) (path : String) (kvs : List KeyValue) :
    ∀ eff ∈ (writeKVs env path kvs).2, ∃ f v, eff = Effect.write path f v := by
  induction kvs with
  | nil => intro eff h; simp [writeKVs] at h
  | cons kv rest ih =>
    apply seqE_forall
    · intro eff h
      simp only [callE] at h
      simp at h
      exact ⟨kv.Key, kv.Value, h⟩
    · intro a _ eff h
      exact ih eff h

/-- Every effect of the devices block is a block effect. -/
theorem devicesBlock_effects (env : Env) (c : Cgroup) (pid : Int)
    (fg : Bool) (cg : String) (devs : List String) :
    ∀ eff ∈ (devicesBlock env c pid fg cg devs).2, eff.isBlockEffect = true := by
  unfold devicesBlock
  split
  · apply seqE_forall
    · intro eff h; simp [callE] at h; simp [h, Effect.isBlockEffect]
    · intro mp _
      split
      · apply seqE_forall
        · intro eff h; simp [callE] at h; simp [h, Effect.isBlockEffect]
        · intro ip _
          apply seqE_forall
          · intro eff h; simp [callE] at h; simp [h, Effect.isBlockEffect]
          · intro _ _
            apply seqE_forall
            · intro eff h; simp [callE] at h; simp [h, Effect.isBlockEffect]
            · intro _ _
              apply seqE_forall
              · intro eff h; simp [callE] at h; simp [h, Effect.isBlockEffect]
              · intro _ _
                apply seqE_forall
                · intro eff h
                  rcases writeKVs_effects env _ _ eff h with ⟨f, v, rfl⟩
                  simp [Effect.isBlockEffect]
                · intro _ _ eff h; simp at h
      · apply seqE_forall
        · intro eff h
          rcases writeKVs_effects env _ _ eff h with ⟨f, v, rfl⟩
          simp [Effect.isBlockEffect]
        · intro _ _ eff h; simp at h
  · intro eff h; simp at h

/-- Every effect of the cpu block is a block effect. -/
theorem cpuBlock_effects (env : Env) (cg : String) (cpuArgs : List KeyValue) :
    ∀ eff ∈ (cpuBlock env cg cpuArgs).2, eff.isBlockEffect = true := by
  unfold cpuBlock
  split
  · apply seqE_forall
    · intro eff h; simp [callE] at h; simp [h, Effect.isBlockEffect]
    · intro mp _ eff h
      rcases writeKVs_effects env _ _ eff h with ⟨f, v, rfl⟩
      simp [Effect.isBlockEffect]
  · intro eff h; simp at h

/-- Every effect of the memory block is a block effect. -/
theorem memoryBlock_effects (env : Env) (cg : String) (memoryArgs : List KeyValue) :
    ∀ eff ∈ (memoryBlock env cg memoryArgs).2, eff.isBlockEffect = true := by
  unfold memoryBlock
  split
  · apply seqE_forall
    · intro eff h; simp [callE] at h; simp [h, Effect.isBlockEffect]
    · intro mp _ eff h
      rcases writeKVs_effects env _ _ eff h with ⟨f, v, rfl⟩
      simp [Effect.isBlockEffect]
  · intro eff h; simp at h

/-- Every effect of the cpuset block is a block effect. -/
theorem cpusetBlock_effects (env : Env) (c : Cgroup) (pid : Int) :
    ∀ eff ∈ (cpusetBlock env c pid).2, eff.isBlockEffect = true := by
  unfold cpusetBlock
  dsimp only
  split
  · apply seqE_forall
    · intro eff h; simp [callE] at h; simp [h, Effect.isBlockEffect]
    · intro mp _
      apply seqE_forall
      · intro eff h; simp [callE] at h; simp [h, Effect.isBlockEffect]
      · intro ip _
        apply seqE_forall
        · intro eff h; simp [callE] at h; simp [h, Effect.isBlockEffect]
        · intro _ _
          apply seqE_forall
          · intro eff h
            rcases writeKVs_effects env _ _ eff h with ⟨f, v, rfl⟩
            simp [Effect.isBlockEffect]
          · intro _ _
            apply seqE_forall
            · split
              · intro eff h; simp at h
              · apply seqE_forall
                · intro eff h; simp [callE] at h; simp [h, Effect.isBlockEffect]
                · intro s _ eff h; simp [callE] at h; simp [h, Effect.isBlockEffect]
            · intro _ _
              apply seqE_forall
              · split
                · intro eff h; simp at h
                · apply seqE_forall
                  · intro eff h; simp [callE] at h; simp [h, Effect.isBlockEffect]
                  · intro s _ eff h; simp [callE] at h; simp [h, Effect.isBlockEffect]
              · intro _ _
                apply seqE_forall
                · intro eff h; simp [callE] at h; simp [h, Effect.isBlockEffect]
                · intro _ _ eff h; simp at h
  · intro eff h; simp at h

/-- Block effects never address a unit and are never lifecycle calls. -/
theorem blockEffect_not_manager (eff : Effect) (h : eff.isBlockEffect = true) :
    eff.managerUnitName = none ∧ eff.isUnitLifecycleCall = false := by
  cases eff <;> simp_all [Effect.isBlockEffect, Effect.managerUnitName,
    Effect.isUnitLifecycleCall]

/-- Inversion for resolveUnit: a successful resolution returns the
foreground flag of the spec, and in foreground mode the base name of
the directory the environment reported. -/
theorem resolveUnit_ok (env : Env) (c : Cgroup) (a : String × Bool)
    (h : (resolveUnit env c).1 = Except.ok a) :
    a.2 = c.Foreground ∧
    (c.Foreground = false → a.1 = c.Parent ++ "-" ++ c.Name ++ ".scope") ∧
    (c.Foreground = true → ∃ d, env.thisCgroupDir = Except.ok d ∧ a.1 = baseName d) := by
  unfold resolveUnit at h
  by_cases hfg : c.Foreground
  · simp only [hfg, if_true] at h
    cases hd : env.thisCgroupDir with
    | ok d =>
      rw [hd] at h
      simp at h
      refine ⟨?_, ?_, ?_⟩
      · simp [← h, hfg]
      · intro hc; rw [hc] at hfg; cases hfg
      · intro _; exact ⟨d, rfl, by simp [← h]⟩
    | error e => rw [hd] at h; cases h
  · simp only [hfg, if_false] at h
    simp at h
    simp [hfg] at *
    refine ⟨by simp [← h], by simp [← h]⟩

/-- Every effect of an apply run addresses the manager only under the
unit name that resolveUnit produced. -/
theorem systemdApply_usesUnitName (env : Env) (c : Cgroup) (pid : Int) (unit : String)
    (hres : ∀ a, (resolveUnit env c).1 = Except.ok a → a.1 = unit)
    (htrace : ∀ eff ∈ (resolveUnit env c).2, usesUnitName unit eff = true) :
    ∀ eff ∈ (systemdApply env c pid).2, usesUnitName unit eff = true := by
  unfold systemdApply
  apply seqE_forall
  · exact htrace
  · intro a ha
    have haname : a.1 = unit := hres a ha
    apply seqE_forall
    · intro eff h
      unfold managerCall at h
      split at h
      · split at h
        · simp [callE] at h
          simp [h, usesUnitName, Effect.managerUnitName, haname]
        · simp at h
      · simp [callE] at h
        simp [h, usesUnitName, Effect.managerUnitName, haname]
    · intro _ _
      apply seqE_forall
      · intro eff h
        simp [discoverCgroup, callE] at h
        simp [h, usesUnitName, Effect.managerUnitName, haname]
      · intro cg _
        apply seqE_forall
        · intro eff h
          have hb := devicesBlock_effects env c pid a.2 cg (devicesOf c a.2) eff h
          simp [usesUnitName, (blockEffect_not_manager eff hb).1]
        · intro _ _
          apply seqE_forall
          · intro eff h
            have hb := cpuBlock_effects env cg (cpuArgsOf c) eff h
            simp [usesUnitName, (blockEffect_not_manager eff hb).1]
          · intro _ _
            apply seqE_forall
            · intro eff h
              have hb := memoryBlock_effects env cg (memoryArgsOf c) eff h
              simp [usesUnitName, (blockEffect_not_manager eff hb).1]
            · intro _ _
              apply seqE_forall
              · intro eff h
                have hb := cpusetBlock_effects env c pid eff h
                simp [usesUnitName, (blockEffect_not_manager eff hb).1]
              · intro _ _ eff h
                simp at h

/-- C5: in non-foreground mode the manager call is issued first, as a
transient-unit creation named Parent-Name.scope, and every
unit-addressed effect of the run uses that name; in foreground mode
every unit-addressed effect uses the base name of the caller's own
systemd cgroup directory, so no unit name is built from Parent and
Name. -/
theorem c5_unit_name (env : Env) (c : Cgroup) (pid : Int) (d : String) :
    (c.Foreground = false →
      (systemdApply env c pid).2.head? =
        some (Effect.startTransientUnit (c.Parent ++ "-" ++ c.Name ++ ".scope") "replace"
          (propertiesOf c pid false))
      ∧ ((systemdApply env c pid).2.all
          (usesUnitName (c.Parent ++ "-" ++ c.Name ++ ".scope"))) = true)
    ∧ (c.Foreground = true → env.thisCgroupDir = Except.ok d →
      ((systemdApply env c pid).2.all (usesUnitName (baseName d))) = true) := by
  constructor
  · intro hfg
    have h1 : resolveUnit env c =
        (Except.ok (c.Parent ++ "-" ++ c.Name ++ ".scope", false), []) := by
      simp [resolveUnit, hfg]
    constructor
    · unfold systemdApply
      rw [h1]
      simp only [seqE, List.nil_append, managerCall, Bool.false_eq_true, if_false, callE]
      cases henv : env.startTransientUnitRes with
      | ok u => rfl
      | error e => rfl
    · rw [List.all_eq_true]
      apply systemdApply_usesUnitName
      · intro a ha
        exact (resolveUnit_ok env c a ha).2.1 hfg
      · rw [h1]
        intro eff h
        simp at h
  · intro hfg hd
    rw [List.all_eq_true]
    apply systemdApply_usesUnitName
    · intro a ha
      obtain ⟨d2, hd2, hbn⟩ := (resolveUnit_ok env c a ha).2.2 hfg
      rw [hd] at hd2
      injection hd2 with hdd
      rw [hbn, hdd]
    · intro eff h
      simp [resolveUnit, hfg, hd] at h
      simp [h, usesUnitName, Effect.managerUnitName]

/-- C5 witness: background docker-c1 starts docker-c1.scope first and
addresses only it; foreground addresses only session-1.scope. -/
theorem c5_unit_name_witness :
    ((systemdApply okEnv baseSpec 7).2.head? =
      some (Effect.startTransientUnit ("docker" ++ "-" ++ "c1" ++ ".scope") "replace"
        (propertiesOf baseSpec 7 false))
     ∧ ((systemdApply okEnv baseSpec 7).2.all
        (usesUnitName ("docker" ++ "-" ++ "c1" ++ ".scope"))) = true)
    ∧ ((systemdApply okEnv c3spec 7).2.all
        (usesUnitName (baseName "/user.slice/session-1.scope"))) = true := by
  constructor
  · exact (c5_unit_name okEnv baseSpec 7 "/user.slice/session-1.scope").1 rfl
  · exact (c5_unit_name okEnv c3spec 7 "/user.slice/session-1.scope").2 rfl rfl

/-- C6 counterexample: a foreground spec with an empty planned property
list still triggers a service-manager query — the control-group path
query for the session unit — so the apply operation does issue a
manager call. -/
theorem c6_manager_query_counterexample :
    propertiesOf c3spec 7 true = []
    ∧ Effect.getUnitTypeProperties "session-1.scope" "Scope" ∈
        (systemdApply okEnv c3spec 7).2 := by
  constructor
  · decide
  · decide

/-- C6 (amended): for a foreground spec whose planned unit property
list is empty, the apply operation issues neither a transient-unit
creation nor a property-update call; only the path-discovery query
addresses the manager. -/
theorem c6_no_lifecycle_call (env : Env) (c : Cgroup) (pid : Int)
    (h1 : c.Foreground = true) (h2 : propertiesOf c pid true = []) :
    ((systemdApply env c pid).2.all fun eff => !eff.isUnitLifecycleCall) = true := by
  rw [List.all_eq_true]
  have key : ∀ eff ∈ (systemdApply env c pid).2, eff.isUnitLifecycleCall = false := by
    unfold systemdApply
    apply seqE_forall
    · intro eff h
      simp only [resolveUnit, h1, if_true] at h
      cases henv : env.thisCgroupDir with
      | ok dd => rw [henv] at h; simp at h; simp [h, Effect.isUnitLifecycleCall]
      | error e => rw [henv] at h; simp at h; simp [h, Effect.isUnitLifecycleCall]
    · intro a ha
      have ha2 : a.2 = c.Foreground := (resolveUnit_ok env c a ha).1
      rw [h1] at ha2
      apply seqE_forall
      · intro eff h
        rw [ha2, h2] at h
        simp [managerCall] at h
      · intro _ _
        apply seqE_forall
        · intro eff h
          simp [discoverCgroup, callE] at h
          simp [h, Effect.isUnitLifecycleCall]
        · intro cg _
          apply seqE_forall
          · intro eff h
            exact (blockEffect_not_manager eff
              (devicesBlock_effects env c pid a.2 cg (devicesOf c a.2) eff h)).2
          · intro _ _
            apply seqE_forall
            · intro eff h
              exact (blockEffect_not_manager eff
                (cpuBlock_effects env cg (cpuArgsOf c) eff h)).2
            · intro _ _
              apply seqE_forall
              · intro eff h
                exact (blockEffect_not_manager eff
                  (memoryBlock_effects env cg (memoryArgsOf c) eff h)).2
              · intro _ _
                apply seqE_forall
                · intro eff h
                  exact (blockEffect_not_manager eff
                    (cpusetBlock_effects env c pid eff h)).2
                · intro _ _ eff h
                  simp at h
  intro eff h
  simp [key eff h]

/-- C6 witness: the amended statement at the foreground base spec. -/
theorem c6_no_lifecycle_call_witness :
    ((systemdApply okEnv c3spec 7).2.all fun eff => !eff.isUnitLifecycleCall) = true :=
  c6_no_lifecycle_call okEnv c3spec 7 rfl (by decide)

/-- C7: when the transient-unit creation (non-foreground) or the
property update (foreground) fails, apply returns exactly that error —
so no handle — and its trace contains no directory creation, no
control-file write, and no removal: cgroup filesystem state and
membership are untouched. -/
theorem c7_manager_failure (env : Env) (c : Cgroup) (pid : Int) (e : Err)
    (h : (c.Foreground = false ∧ env.startTransientUnitRes = Except.error e) ∨
         (∃ d, c.Foreground = true ∧ env.thisCgroupDir = Except.ok d ∧
            propertiesOf c pid true ≠ [] ∧ env.setUnitPropertiesRes = Except.error e)) :
    (systemdApply env c pid).1 = Except.error e
    ∧ ((systemdApply env c pid).2.all fun eff => !eff.touchesFilesystem) = true := by
  rcases h with ⟨hfg, hres⟩ | ⟨d, hfg, hd, hne, hres⟩
  · have h1 : resolveUnit env c =
        (Except.ok (c.Parent ++ "-" ++ c.Name ++ ".scope", false), []) := by
      simp [resolveUnit, hfg]
    unfold systemdApply
    rw [h1]
    simp [seqE, managerCall, callE, hres, Effect.touchesFilesystem]
  · have h1 : resolveUnit env c =
        (Except.ok (baseName d, true), [Effect.getThisCgroupDir "name=systemd"]) := by
      simp [resolveUnit, hfg, hd]
    have hlen : (propertiesOf c pid true).length > 0 := List.length_pos.mpr hne
    unfold systemdApply
    rw [h1]
    simp [seqE, managerCall, callE, hres, hlen, Effect.touchesFilesystem]

/-- C7 witness: a failing transient-unit creation for the background
base spec propagates the error with no filesystem effect. -/
theorem c7_manager_failure_witness :
    (systemdApply { okEnv with startTransientUnitRes := Except.error "unit failed" }
        baseSpec 7).1 = Except.error "unit failed"
    ∧ ((systemdApply { okEnv with startTransientUnitRes := Except.error "unit failed" }
        baseSpec 7).2.all fun eff => !eff.touchesFilesystem) = true :=
  c7_manager_failure { okEnv with startTransientUnitRes := Except.error "unit failed" }
    baseSpec 7 "unit failed" (Or.inl ⟨rfl, rfl⟩)

/-- C8: with at least one cpuset list supplied and a cooperative
environment, the cpuset block creates the single flat directory
Parent-Name directly under the root cpuset directory, writes every
supplied list, reads each unsupplied list from the root directory and
writes it down unchanged, writes the pid into cgroup.procs last, and
returns exactly that directory as the handle's cpuset-owned path. -/
theorem c8_cpuset_block (env : Env) (c : Cgroup) (pid : Int) (mp ip sc sm : String)
    (hne : c.CpusetCpus ≠ "" ∨ c.CpusetMems ≠ "")
    (hmp : env.mountpoint "cpuset" = Except.ok mp)
    (hip : env.initCgroupDir "cpuset" = Except.ok ip)
    (hmk : ∀ p, env.mkdirRes p = Except.ok ())
    (hw : ∀ p f v, env.writeRes p f v = Except.ok ())
    (hrc : env.readRes (joinPath (joinPath mp ip) "cpuset.cpus") = Except.ok sc)
    (hrm : env.readRes (joinPath (joinPath mp ip) "cpuset.mems") = Except.ok sm) :
    cpusetBlock env c pid =
      (Except.ok [joinPath (joinPath mp ip) (c.Parent ++ "-" ++ c.Name)],
       [Effect.findMountpoint "cpuset", Effect.getInitCgroupDir "cpuset",
        Effect.mkdirAll (joinPath (joinPath mp ip) (c.Parent ++ "-" ++ c.Name))]
       ++ (if c.CpusetCpus ≠ "" then
            [Effect.write (joinPath (joinPath mp ip) (c.Parent ++ "-" ++ c.Name))
              "cpuset.cpus" c.CpusetCpus]
          else [])
       ++ (if c.CpusetMems ≠ "" then
            [Effect.write (joinPath (joinPath mp ip) (c.Parent ++ "-" ++ c.Name))
              "cpuset.mems" c.CpusetMems]
          else [])
       ++ (if c.CpusetCpus = "" then
            [Effect.readFile (joinPath (joinPath mp ip) "cpuset.cpus"),
             Effect.write (joinPath (joinPath mp ip) (c.Parent ++ "-" ++ c.Name))
               "cpuset.cpus" sc]
          else [])
       ++ (if c.CpusetMems = "" then
            [Effect.readFile (joinPath (joinPath mp ip) "cpuset.mems"),
             Effect.write (joinPath (joinPath mp ip) (c.Parent ++ "-" ++ c.Name))
               "cpuset.mems" sm]
          else [])
       ++ [Effect.write (joinPath (joinPath mp ip) (c.Parent ++ "-" ++ c.Name))
            "cgroup.procs" (toString pid)]) := by
  by_cases hc : c.CpusetCpus = ""
  · by_cases hm : c.CpusetMems = ""
    · exact hne.elim (fun h => absurd hc h) (fun h => absurd hm h)
    · have hargs : cpusetArgsOf c = [{ Key := "cpuset.mems", Value := c.CpusetMems }] := by
        simp [cpusetArgsOf, hc, hm]
      simp +decide [cpusetBlock, hargs, seqE, callE, writeKVs, hmp, hip, hmk, hw,
        hrc, hrm, hc, hm]
  · by_cases hm : c.CpusetMems = ""
    · have hargs : cpusetArgsOf c = [{ Key := "cpuset.cpus", Value := c.CpusetCpus }] := by
        simp [cpusetArgsOf, hc, hm]
      simp +decide [cpusetBlock, hargs, seqE, callE, writeKVs, hmp, hip, hmk, hw,
        hrc, hrm, hc, hm]
    · have hargs : cpusetArgsOf c =
          [{ Key := "cpuset.cpus", Value := c.CpusetCpus },
           { Key := "cpuset.mems", Value := c.CpusetMems }] := by
        simp [cpusetArgsOf, hc, hm]
      simp +decide [cpusetBlock, hargs, seqE, callE, writeKVs, hmp, hip, hmk, hw,
        hrc, hrm, hc, hm]

/-- C8 witness: CpusetCpus "0-1" supplied, CpusetMems inherited from
the root directory value "0-3", pid joined last, handle owns the one
flat directory. -/
theorem c8_cpuset_block_witness :
    cpusetBlock okEnv { baseSpec with CpusetCpus := "0-1" } 7 =
      (Except.ok ["/mnt/init/docker-c1"],
       [Effect.findMountpoint "cpuset", Effect.getInitCgroupDir "cpuset",
        Effect.mkdirAll "/mnt/init/docker-c1",
        Effect.write "/mnt/init/docker-c1" "cpuset.cpus" "0-1",
        Effect.readFile "/mnt/init/cpuset.mems",
        Effect.write "/mnt/init/docker-c1" "cpuset.mems" "0-3",
        Effect.write "/mnt/init/docker-c1" "cgroup.procs" "7"]) := by
  have h := c8_cpuset_block okEnv { baseSpec with CpusetCpus := "0-1" } 7
    "/mnt" "init" "0-3" "0-3" (Or.inl (by decide)) rfl rfl
    (fun p => rfl) (fun p f v => rfl) rfl rfl
  simpa +decide [joinPath] using h

/-- The effect of a Cleanup over the modelled filesystem is one filter
by survival of every owned directory. -/
theorem foldl_removeAllFS (cleanupDirs : List String) (fs : List String) :
    cleanupDirs.foldl removeAllFS fs =
      fs.filter fun q =>
        cleanupDirs.all fun d2 => !(q == d2 || String.isPrefixOf (d2 ++ "/") q) := by
  induction cleanupDirs generalizing fs with
  | nil => simp
  | cons d ds ih =>
    rw [List.foldl_cons, ih]
    unfold removeAllFS
    rw [List.filter_filter]
    apply List.filter_congr
    intro q _
    simp [List.all_cons, Bool.and_comm]

/-- C9: Cleanup returns no error, a second Cleanup returns no error and
leaves the filesystem of the first unchanged, and every path it removes
is a recorded cleanup directory or sits below one. -/
theorem c9_cleanup_idempotent (cleanupDirs fs : List String) :
    (Cleanup cleanupDirs fs).2 = none
    ∧ (Cleanup cleanupDirs (Cleanup cleanupDirs fs).1).2 = none
    ∧ (Cleanup cleanupDirs (Cleanup cleanupDirs fs).1).1 = (Cleanup cleanupDirs fs).1
    ∧ (fs.all fun q => (Cleanup cleanupDirs fs).1.contains q ||
        cleanupDirs.any fun d2 => q == d2 || String.isPrefixOf (d2 ++ "/") q) = true := by
  refine ⟨rfl, rfl, ?_, ?_⟩
  · show cleanupDirs.foldl removeAllFS (cleanupDirs.foldl removeAllFS fs) =
        cleanupDirs.foldl removeAllFS fs
    rw [foldl_removeAllFS cleanupDirs fs, foldl_removeAllFS, List.filter_filter]
    apply List.filter_congr
    intro q _
    rw [Bool.and_self]
  · rw [List.all_eq_true]
    intro q hq
    rw [Bool.or_eq_true]
    by_cases hP : (cleanupDirs.all fun d2 =>
        !(q == d2 || String.isPrefixOf (d2 ++ "/") q)) = true
    · left
      have hmem : q ∈ (Cleanup cleanupDirs fs).1 := by
        show q ∈ cleanupDirs.foldl removeAllFS fs
        rw [foldl_removeAllFS, List.mem_filter]
        exact ⟨hq, hP⟩
      simpa using hmem
    · right
      rw [List.all_eq_true] at hP
      push_neg at hP
      obtain ⟨d2, hd2, hnb⟩ := hP
      rw [List.any_eq_true]
      refine ⟨d2, hd2, ?_⟩
      revert hnb
      cases q == d2 || String.isPrefixOf (d2 ++ "/") q <;> simp

/-- C10: a joined path that does not exist makes readAll report the
empty result with no error, while a denied directory read or a
non-directory at the path is surfaced as an error carrying no result. -/
theorem c10_readAll_error_handling (denied : List String → Bool)
    (root pfx : List String) (n : Option Node) (d : String) :
    (denied (root ++ pfx) = false → readAllGo denied root pfx none = Except.ok [])
    ∧ (denied (root ++ pfx) = true →
        readAllGo denied root pfx n = Except.error (SecErr.other "permission denied"))
    ∧ (denied (root ++ pfx) = false →
        readAllGo denied root pfx (some (Node.file d)) =
          Except.error (SecErr.other "not a directory")) := by
  refine ⟨?_, ?_, ?_⟩ <;> intro h <;> simp [readAllGo, readDirM, h]

/-- C10 witness: the three behaviors at the host secrets root. -/
theorem c10_readAll_error_handling_witness :
    readAllGo (fun _ => false) ["usr", "share", "rhel", "secrets"] [] none = Except.ok []
    ∧ readAllGo (fun _ => true) ["usr", "share", "rhel", "secrets"] [] none =
        Except.error (SecErr.other "permission denied")
    ∧ readAllGo (fun _ => false) ["usr", "share", "rhel", "secrets"] []
        (some (Node.file "x")) = Except.error (SecErr.other "not a directory") := by
  refine ⟨?_, ?_, ?_⟩
  · exact (c10_readAll_error_handling (fun _ => false)
      ["usr", "share", "rhel", "secrets"] [] none "x").1 rfl
  · exact (c10_readAll_error_handling (fun _ => true)
      ["usr", "share", "rhel", "secrets"] [] none "x").2.1 rfl
  · exact (c10_readAll_error_handling (fun _ => false)
      ["usr", "share", "rhel", "secrets"] [] (some (Node.file "x")) "x").2.2 rfl
